import Mathlib

/-
Shallow embedding of src/include/memory_resource.hpp (feroldi::pmr).

Objects of the abstract class memory_resource are identified by address;
the two concrete resources defined in the header are the function-local
statics of new_delete_resource() and null_memory_resource().  Further
strategy objects a user may define are modelled by the userRes family
(each value a distinct object at a distinct address).  A null
memory_resource pointer is modelled as Option.none where a pointer can
be null, and address 0 where addresses are compared.
-/

inductive memory_resource : Type
  | newDelete : memory_resource
  | nullSink : memory_resource
  | userRes : Nat → memory_resource
deriving DecidableEq

/-- The address of a resource object: the two statics live at fixed,
distinct, nonzero addresses; user resources at further distinct ones.
Address 0 stands for the null pointer. -/
def memory_resource.addr : memory_resource → Nat
  | .newDelete => 1
  | .nullSink => 2
  | .userRes i => i + 3

/-- Both do_is_equal overrides defined in the header compare object
identity (this == &other); user strategies are modelled alike. -/
def memory_resource.do_is_equal (a b : memory_resource) : Bool :=
  decide (a = b)

def memory_resource.is_equal (a b : memory_resource) : Bool :=
  a.do_is_equal b

/-- operator==(const memory_resource &, const memory_resource &):
address identity short-circuit, then the virtual is_equal. -/
def mem_res_eq (a b : memory_resource) : Bool :=
  decide (a = b) || a.is_equal b

/-- Capacity bound of the host general-purpose allocator backing
operator new.  The host heap is outside the repository; it is modelled
as granting any request below this bound and failing above it. -/
def hostCapacity : Nat := 2 ^ 47

/-- do_allocate of each concrete resource.  new_delete_resource defers
to operator new (modelled by hostCapacity); null_memory_resource throws
std::bad_alloc, modelled as none.  A user strategy is immaterial to the
claims and modelled as the host heap. -/
def memory_resource.do_allocate : memory_resource → Nat → Nat → Option Nat
  | .newDelete, bytes, _ => if bytes < hostCapacity then some 1 else none
  | .nullSink, _, _ => none
  | .userRes _, bytes, _ => if bytes < hostCapacity then some 1 else none

/-- do_deallocate of each concrete resource, as the list of frees handed
to the host heap: new_delete_resource calls operator delete on p; the
null resource body is empty. -/
def memory_resource.do_deallocate : memory_resource → Nat → Nat → Nat → List Nat
  | .newDelete, p, _, _ => [p]
  | .nullSink, _, _, _ => []
  | .userRes _, _, _, _ => []

def memory_resource.allocate (m : memory_resource) (bytes alignment : Nat) :
    Option Nat :=
  m.do_allocate bytes alignment

def memory_resource.deallocate (m : memory_resource) (p bytes alignment : Nat) :
    List Nat :=
  m.do_deallocate p bytes alignment

def new_delete_resource : memory_resource := .newDelete

def null_memory_resource : memory_resource := .nullSink

/-- The state of detail::get_default_resource_impl, one atomic pointer.
The stored pointer is never null: it starts at new_delete_resource and
set_default_resource substitutes new_delete_resource for null. -/
structure RegistryState : Type where
  r : memory_resource
deriving DecidableEq

def registryStart : RegistryState := ⟨new_delete_resource⟩

def get_default_resource (s : RegistryState) : memory_resource :=
  s.r

/-- set_default_resource: substitute the pass-through resource for null,
exchange, and return the previous value. -/
def set_default_resource (p : Option memory_resource) (s : RegistryState) :
    memory_resource × RegistryState :=
  (s.r, ⟨p.getD new_delete_resource⟩)

/-- new_delete_resource() as called in some registry state: the address
of one function-local static, indifferent to the state. -/
def new_delete_resource_call (_s : RegistryState) : memory_resource :=
  new_delete_resource

/-- null_memory_resource() as called in some registry state. -/
def null_memory_resource_call (_s : RegistryState) : memory_resource :=
  null_memory_resource

/-- polymorphic_allocator<Tp>, erased of its phantom element type Tp:
one field res, a possibly-null pointer to a memory_resource. -/
structure polymorphic_allocator : Type where
  res : Option memory_resource
deriving DecidableEq

/-- Default constructor: res(get_default_resource()). -/
def polymorphic_allocator.mk_default (s : RegistryState) :
    polymorphic_allocator :=
  ⟨some (get_default_resource s)⟩

/-- Constructor from a resource pointer: assert(r) makes construction
from null a contract violation, modelled as none. -/
def polymorphic_allocator.mk_from_res (r : Option memory_resource) :
    Option polymorphic_allocator :=
  match r with
  | none => none
  | some m => some ⟨some m⟩

/-- The defaulted copy constructor. -/
def polymorphic_allocator.copy (a : polymorphic_allocator) :
    polymorphic_allocator :=
  ⟨a.res⟩

/-- The converting constructor from polymorphic_allocator<U>:
res(other.resource()). -/
def polymorphic_allocator.rebind (a : polymorphic_allocator) :
    polymorphic_allocator :=
  ⟨a.res⟩

/-- allocate(n): res->allocate(n * sizeof(Tp), alignof(Tp)).  The
multiplication is on size_t, so the product wraps modulo 2 ^ 64; szT
and alT stand for sizeof(Tp) and alignof(Tp). -/
def polymorphic_allocator.allocate (a : polymorphic_allocator)
    (n szT alT : Nat) : Option Nat :=
  match a.res with
  | some m => m.allocate ((n * szT) % 2 ^ 64) alT
  | none => none

/-- select_on_container_copy_construction: returns
polymorphic_allocator(), the default-constructed adapter, which binds
the current default resource at call time. -/
def polymorphic_allocator.select_on_container_copy_construction
    (_a : polymorphic_allocator) (s : RegistryState) :
    polymorphic_allocator :=
  polymorphic_allocator.mk_default s

/-- operator== on adapters: *a.resource() == *b.resource().  Both
pointers are dereferenced; on a null binding the comparison is
undefined behaviour, modelled as false. -/
def alloc_eq (a b : polymorphic_allocator) : Bool :=
  match a.res, b.res with
  | some x, some y => mem_res_eq x y
  | _, _ => false

/-
Uses-allocator construction.  A target type T with an argument list
Args... enters the dispatch through three compile-time predicates; a
CtorTraits value records their truth for one (T, Args...) pair.
-/

/-- Compile-time traits of one construction request:
uses_allocator models std::uses_allocator_v<T, Alloc>; leading_ctor
models std::is_constructible_v<T, std::allocator_arg_t, Alloc, Args...>;
trailing_ctor models std::is_constructible_v<T, Args..., Alloc>. -/
structure CtorTraits : Type where
  uses_allocator : Bool
  leading_ctor : Bool
  trailing_ctor : Bool
deriving DecidableEq

/-- uses_alloc_ctor_impl: the primary template (UsesAlloc = false) has
value 0; the true specialisation sets first_ctor from the leading form,
second_ctor from the trailing form only when first_ctor is false, makes
the request ill-formed (none) by static_assert when both are false, and
otherwise has value first_ctor ? 1 : 2. -/
def uses_alloc_ctor_impl (t : CtorTraits) : Option Nat :=
  if t.uses_allocator then
    let first_ctor := t.leading_ctor
    let second_ctor := if first_ctor then false else t.trailing_ctor
    if first_ctor || second_ctor then
      some (if first_ctor then 1 else 2)
    else
      none
  else
    some 0

/-- One argument of the placement-new expression a _construct overload
emits: the std::allocator_arg tag, the adapter *this, or a forwarded
caller argument (identified by its position). -/
inductive CtorArg : Type
  | allocator_tag : CtorArg
  | allocator : CtorArg
  | plain : Nat → CtorArg
deriving DecidableEq

/-- The three _construct overloads, selected by the integral tag:
uses_alloc0 builds T(args...), uses_alloc1 builds
T(std::allocator_arg, *this, args...), uses_alloc2 builds
T(args..., *this). -/
def _construct (tag : Nat) (args : List Nat) : List CtorArg :=
  match tag with
  | 0 => args.map .plain
  | 1 => .allocator_tag :: .allocator :: args.map .plain
  | _ => args.map .plain ++ [.allocator]

/-- construct(p, args...): compute the uses_alloc_ctor tag for the
traits of (T, Args...) and dispatch to _construct; none when the tag
computation is ill-formed. -/
def pa_construct (t : CtorTraits) (args : List Nat) : Option (List CtorArg) :=
  (uses_alloc_ctor_impl t).map (fun tag => _construct tag args)

/-- The dispatch order in the words of the claim: not allocator-aware
constructs with args unchanged; else the leading-tag form when
constructible that way; else the allocator appended last when
constructible that way. -/
def dispatch_order_claim (t : CtorTraits) (args : List Nat) :
    Option (List CtorArg) :=
  if !t.uses_allocator then
    some (args.map .plain)
  else if t.leading_ctor then
    some (.allocator_tag :: .allocator :: args.map .plain)
  else if t.trailing_ctor then
    some (args.map .plain ++ [.allocator])
  else
    none

/-
The convenience construct overloads for pair targets, modelled at the
level of overload resolution.  A PArg is the shape of one argument of a
construct(pair<T1, T2> *p, ...) call; construct_pair_dispatch walks the
delegation chain the source performs, consuming one unit of fuel per
nested call, and produces the piecewise call (the two tuples handed to
the piecewise overload) when the chain reaches it.
-/

inductive PArg : Type
  | piecewiseTag : PArg
  | tup : List PArg → PArg
  | val : Nat → PArg
  | pairLV : PArg → PArg → PArg
  | pairRV : PArg → PArg → PArg

/-- The two tuples a delegation chain hands to the piecewise overload. -/
structure PiecewiseCall : Type where
  xs : List PArg
  ys : List PArg

/-- Overload dispatch of construct on a pair target.  In order: the
piecewise overload (tag and two tuples) terminates the chain; the
zero-argument overload delegates with the tag and two empty tuples; the
const-lvalue pair overload delegates WITHOUT the tag (as the source is
written); the rvalue pair overload delegates with the tag; any other
two-argument call matches the (U, V) overload, which also delegates
without the tag, wrapping each argument in a one-element tuple.  none
means the chain never reaches the piecewise overload within the given
fuel. -/
def construct_pair_dispatch : Nat → List PArg → Option PiecewiseCall
  | 0, _ => none
  | _ + 1, [PArg.piecewiseTag, PArg.tup xs, PArg.tup ys] => some ⟨xs, ys⟩
  | fuel + 1, [] =>
      construct_pair_dispatch fuel [PArg.piecewiseTag, PArg.tup [], PArg.tup []]
  | fuel + 1, [PArg.pairLV x y] =>
      construct_pair_dispatch fuel [PArg.tup [x], PArg.tup [y]]
  | fuel + 1, [PArg.pairRV x y] =>
      construct_pair_dispatch fuel
        [PArg.piecewiseTag, PArg.tup [x], PArg.tup [y]]
  | fuel + 1, [x, y] =>
      construct_pair_dispatch fuel [PArg.tup [x], PArg.tup [y]]
  | _ + 1, _ => none

/-
BumpArena (monotonic_buffer_resource).
-/

/-- Modelled from the spec: one chunk of the arena chain, a block
acquired from upstream with its address, total size and current bump
offset; the member function bodies of monotonic_buffer_resource are
declared in the header but their definitions are missing from src. -/
structure Chunk : Type where
  ptr : Nat
  size : Nat
  off : Nat
deriving DecidableEq

/-- Modelled from the spec: the ceiling at which the geometric growth
of next_buffer_size saturates. -/
def growth_ceiling : Nat := 2 ^ 32

/-- Round n up to a multiple of the alignment a. -/
def alignUp (n a : Nat) : Nat := (n + a - 1) / a * a

/-- Modelled from the spec: the arena state.  initial_size is the
configured initial chunk size, chunks the chain with the current chunk
at its head (Empty when the chain is empty), next_buffer_size the size
of the next chunk to acquire. -/
structure mono_buffer : Type where
  initial_size : Nat
  chunks : List Chunk
  next_buffer_size : Nat
deriving DecidableEq

/-- Modelled from the spec: a newly constructed arena with a configured
initial chunk size is Empty with next_buffer_size at that size. -/
def mono_buffer.mk_new (init : Nat) : mono_buffer :=
  ⟨init, [], init⟩

/-- Modelled from the spec: release walks the chunk chain, returns
every chunk to upstream via its deallocate (second component, the
chunk addresses handed back), and resets to Empty. -/
def mono_buffer.release (s : mono_buffer) : mono_buffer × List Nat :=
  (⟨s.initial_size, [], s.initial_size⟩, s.chunks.map Chunk.ptr)

/-- Modelled from the spec: acquire one new chunk from upstream, sized
to the larger of the aligned request and next_buffer_size, link it in
front, and double next_buffer_size saturating at the ceiling; upstream
failure is the arenas failure, with no retry. -/
def mono_buffer.acquire (up : Nat → Option Nat) (s : mono_buffer)
    (bytes align : Nat) : Option (Nat × mono_buffer) :=
  let need := max (alignUp bytes align) s.next_buffer_size
  match up need with
  | none => none
  | some p =>
      some (p, ⟨s.initial_size, ⟨p, need, bytes⟩ :: s.chunks,
                min (s.next_buffer_size * 2) growth_ceiling⟩)

/-- Modelled from the spec: allocate bumps the current chunk when the
aligned request fits in its remaining space, and otherwise acquires a
new chunk from upstream. -/
def mono_buffer.do_allocate (up : Nat → Option Nat) (s : mono_buffer)
    (bytes align : Nat) : Option (Nat × mono_buffer) :=
  match s.chunks with
  | c :: rest =>
      let o := alignUp c.off align
      if o + bytes ≤ c.size then
        some (c.ptr + o,
              ⟨s.initial_size, ⟨c.ptr, c.size, o + bytes⟩ :: rest,
               s.next_buffer_size⟩)
      else
        mono_buffer.acquire up s bytes align
  | [] => mono_buffer.acquire up s bytes align

/-
Theorems.
-/

/-- Addresses identify resource objects: distinct objects live at
distinct addresses. -/
theorem memory_resource.addr_inj :
    ∀ a b : memory_resource, a.addr = b.addr → a = b := by
  intro a b
  cases a <;> cases b <;> simp [memory_resource.addr]

/-- C1: construct(p, args...) dispatches in exactly the claimed
precedence order: a target that is not allocator-aware is constructed
from args unchanged; else the leading-tag form when constructible from
(allocator-tag, adapter, args...); else the trailing form when
constructible from (args..., adapter). -/
theorem construct_dispatch_order :
    ∀ (t : CtorTraits) (args : List Nat),
      pa_construct t args = dispatch_order_claim t args := by
  intro t args
  rcases t with ⟨u, l, tr⟩
  cases u <;> cases l <;> cases tr <;> rfl

/-- C2 counterexample: at n = 2 ^ 61 + 1 with sizeof(T) = 8 the
byte-count multiplication overflows size_t, yet allocate on the
pass-through resource succeeds: the product wraps to 8 bytes and is
forwarded with no failure, so allocate does not fail on overflow. -/
theorem allocate_overflow_counterexample :
    2 ^ 64 ≤ (2 ^ 61 + 1) * 8 ∧
    polymorphic_allocator.allocate ⟨some new_delete_resource⟩
        (2 ^ 61 + 1) 8 8 = some 1 := by
  exact ⟨by decide, rfl⟩

/-- C2 amended: allocate(n) forwards (n * sizeof(T)) mod 2 ^ 64 bytes
at alignof(T) to the bound resource with no overflow check; strategy
failure and success propagate unchanged, and the sink resource always
fails through the adapter. -/
theorem allocate_forwards_wrapped_bytes :
    ∀ (m : memory_resource) (n szT alT : Nat),
      polymorphic_allocator.allocate ⟨some m⟩ n szT alT
          = m.allocate ((n * szT) % 2 ^ 64) alT ∧
      (polymorphic_allocator.allocate ⟨some m⟩ n szT alT).isSome
          = (m.do_allocate ((n * szT) % 2 ^ 64) alT).isSome ∧
      polymorphic_allocator.allocate ⟨some null_memory_resource⟩ n szT alT
          = none := by
  intro m n szT alT
  exact ⟨rfl, rfl, rfl⟩

/-- C3: set_default_resource(X) followed by get_default_resource
returns X; set_default_resource returns the immediately-prior value for
every argument; and a null argument installs the pass-through
resource. -/
theorem set_default_then_get :
    ∀ (X : memory_resource) (s : RegistryState) (p : Option memory_resource),
      get_default_resource (set_default_resource (some X) s).2 = X ∧
      (set_default_resource p s).1 = get_default_resource s ∧
      get_default_resource (set_default_resource none s).2
          = new_delete_resource :=
  fun _ _ _ => ⟨rfl, rfl, rfl⟩

/-- C4: select_on_container_copy_construction returns an adapter bound
to the current default resource at call time, equal to a default-bound
adapter; when the default is not equal to the resource the adapter is
bound to, the returned adapter is not equal to the original. -/
theorem select_on_copy_binds_default :
    ∀ (a : polymorphic_allocator) (s : RegistryState),
      (a.select_on_container_copy_construction s).res
          = some (get_default_resource s) ∧
      alloc_eq (a.select_on_container_copy_construction s)
          ⟨some (get_default_resource s)⟩ = true ∧
      (∀ m : memory_resource, a.res = some m →
        mem_res_eq (get_default_resource s) m = false →
        alloc_eq (a.select_on_container_copy_construction s) a = false) := by
  intro a s
  refine ⟨rfl, ?_, ?_⟩
  · simp [alloc_eq, polymorphic_allocator.select_on_container_copy_construction,
      polymorphic_allocator.mk_default, mem_res_eq]
  · intro m hm hne
    rcases a with ⟨r⟩
    simp only at hm
    subst hm
    simpa [alloc_eq, polymorphic_allocator.select_on_container_copy_construction,
      polymorphic_allocator.mk_default] using hne

theorem select_on_copy_binds_default_witness :
    alloc_eq ((polymorphic_allocator.mk
        (some null_memory_resource)).select_on_container_copy_construction
        registryStart)
      ⟨some null_memory_resource⟩ = false :=
  (select_on_copy_binds_default ⟨some null_memory_resource⟩ registryStart).2.2
    null_memory_resource rfl (by decide)

/-- C5: resource equality through operator== is reflexive, symmetric,
and same-address objects always compare equal. -/
theorem mem_res_eq_refl_symm_ident :
    ∀ a b : memory_resource,
      mem_res_eq a a = true ∧
      mem_res_eq a b = mem_res_eq b a ∧
      (a.addr = b.addr → mem_res_eq a b = true) := by
  intro a b
  refine ⟨by simp [mem_res_eq], ?_, ?_⟩
  · by_cases h : a = b
    · subst h; rfl
    · have h2 : ¬b = a := fun e => h e.symm
      simp [mem_res_eq, memory_resource.is_equal,
        memory_resource.do_is_equal, h, h2]
  · intro h
    have hab : a = b := memory_resource.addr_inj a b h
    subst hab
    simp [mem_res_eq]

theorem mem_res_eq_refl_symm_ident_witness :
    mem_res_eq (.userRes 5) (.userRes 5) = true :=
  (mem_res_eq_refl_symm_ident (.userRes 5) (.userRes 5)).2.2 rfl

/-- C6: on the bump arena, release followed by a fresh allocate behaves
identically to allocate on a newly constructed arena with the same
configured initial size; a second release in a row leaves the state
unchanged and returns no chunk upstream; and allocate never re-enters
the Empty state, so release is the only path back to it. -/
theorem mono_release_reset_law :
    ∀ (up : Nat → Option Nat) (s : mono_buffer) (bytes align : Nat),
      mono_buffer.do_allocate up s.release.1 bytes align
          = mono_buffer.do_allocate up (mono_buffer.mk_new s.initial_size)
              bytes align ∧
      s.release.1.release.1 = s.release.1 ∧
      s.release.1.release.2 = [] ∧
      (∀ (p : Nat) (s2 : mono_buffer),
        mono_buffer.do_allocate up s bytes align = some (p, s2) →
        s2.chunks ≠ []) := by
  intro up s bytes align
  refine ⟨rfl, rfl, rfl, ?_⟩
  intro p s2 h
  rcases s with ⟨init, chunks, next⟩
  cases chunks with
  | nil =>
      cases hu : up (max (alignUp bytes align) next) with
      | none =>
          simp [mono_buffer.do_allocate, mono_buffer.acquire, hu] at h
      | some q =>
          simp [mono_buffer.do_allocate, mono_buffer.acquire, hu] at h
          obtain ⟨-, h2⟩ := h
          subst h2
          simp
  | cons c rest =>
      by_cases hfit : alignUp c.off align + bytes ≤ c.size
      · simp [mono_buffer.do_allocate, hfit] at h
        obtain ⟨-, h2⟩ := h
        subst h2
        simp
      · cases hu : up (max (alignUp bytes align) next) with
        | none =>
            simp [mono_buffer.do_allocate, mono_buffer.acquire, hfit, hu] at h
        | some q =>
            simp [mono_buffer.do_allocate, mono_buffer.acquire, hfit, hu] at h
            obtain ⟨-, h2⟩ := h
            subst h2
            simp

theorem mono_release_reset_law_witness :
    (mono_buffer.mk 64 [Chunk.mk 100 64 8] 128).chunks ≠ [] :=
  (mono_release_reset_law (fun _ => some 100) (mono_buffer.mk_new 64) 8 1).2.2.2
    100 (mono_buffer.mk 64 [Chunk.mk 100 64 8] 128) (by decide)

/-- C7: the sink strategy always fails: allocate is a failure for every
request, deallocate has no effect, and the sink compares equal only to
itself. -/
theorem null_resource_always_fails :
    ∀ (bytes align p : Nat) (b : memory_resource),
      null_memory_resource.allocate bytes align = none ∧
      null_memory_resource.deallocate p bytes align = [] ∧
      (mem_res_eq null_memory_resource b = true ↔ b = null_memory_resource) := by
  intro bytes align p b
  refine ⟨rfl, rfl, ?_⟩
  constructor
  · intro h
    simp [mem_res_eq, memory_resource.is_equal,
      memory_resource.do_is_equal] at h
    exact h.symm
  · intro h
    subst h
    rfl

theorem null_resource_always_fails_witness :
    mem_res_eq null_memory_resource null_memory_resource = true :=
  (null_resource_always_fails 16 8 0 null_memory_resource).2.2.mpr rfl

/-- C8: every constructor of the adapter yields a non-null held
resource reference: the default constructor binds the registry value,
construction from a pointer succeeds only on non-null input (the
assertion fires on null), and copy and rebind preserve non-nullness. -/
theorem poly_alloc_res_nonnull :
    ∀ (s : RegistryState) (r : Option memory_resource)
      (a b : polymorphic_allocator),
      (polymorphic_allocator.mk_default s).res.isSome = true ∧
      (polymorphic_allocator.mk_from_res r = some b →
        b.res.isSome = true) ∧
      polymorphic_allocator.mk_from_res none = none ∧
      (a.res.isSome = true → a.copy.res.isSome = true) ∧
      (a.res.isSome = true → a.rebind.res.isSome = true) := by
  intro s r a b
  refine ⟨rfl, ?_, rfl, fun h => h, fun h => h⟩
  intro h
  cases r with
  | none => exact absurd h (by simp [polymorphic_allocator.mk_from_res])
  | some m =>
      injection h with h2
      rw [← h2]
      rfl

theorem poly_alloc_res_nonnull_witness :
    (polymorphic_allocator.copy ⟨some new_delete_resource⟩).res.isSome = true :=
  (poly_alloc_res_nonnull registryStart (some new_delete_resource)
      ⟨some new_delete_resource⟩ ⟨some new_delete_resource⟩).2.2.2.1 rfl

/-- C9: new_delete_resource() and null_memory_resource() each return
the same non-null pointer on every call, and the two pointers are
distinct. -/
theorem global_resource_singletons :
    ∀ (s t : RegistryState),
      new_delete_resource_call s = new_delete_resource_call t ∧
      null_memory_resource_call s = null_memory_resource_call t ∧
      (new_delete_resource_call s).addr ≠ 0 ∧
      (null_memory_resource_call s).addr ≠ 0 ∧
      new_delete_resource_call s ≠ null_memory_resource_call s := by
  intro s t
  refine ⟨rfl, rfl, ?_, ?_, ?_⟩
  · exact (by decide : (1 : Nat) ≠ 0)
  · exact (by decide : (2 : Nat) ≠ 0)
  · exact (by decide : memory_resource.newDelete ≠ memory_resource.nullSink)

theorem global_resource_singletons_witness :
    new_delete_resource_call registryStart
      ≠ null_memory_resource_call registryStart :=
  (global_resource_singletons registryStart registryStart).2.2.2.2

/-- Once a delegation chain reaches a two-tuple argument list with no
leading piecewise tag, it stays in that shape forever: each step of the
(U, V) overload wraps both arguments in one more tuple layer, and the
piecewise overload is never reached at any fuel. -/
theorem construct_pair_two_tuples_stuck :
    ∀ (fuel : Nat) (xs ys : List PArg),
      construct_pair_dispatch fuel [PArg.tup xs, PArg.tup ys] = none := by
  intro fuel
  induction fuel with
  | zero => intro xs ys; rfl
  | succ n ih =>
      intro xs ys
      show construct_pair_dispatch n
        [PArg.tup [PArg.tup xs], PArg.tup [PArg.tup ys]] = none
      exact ih _ _

/-- C10: the convenience construct overloads for pair targets.  The
zero-argument overload and the rvalue-pair overload do reach the
piecewise overload with the corresponding tuples; the two-argument
overload and the const-lvalue pair overload omit the piecewise tag in
their delegation, re-enter the two-argument overload with the
arguments wrapped in tuples, and never reach the piecewise overload at
any recursion depth. -/
theorem construct_pair_missing_piecewise_tag :
    (∀ fuel : Nat,
       construct_pair_dispatch fuel [PArg.val 1, PArg.val 2] = none) ∧
    (∀ fuel : Nat,
       construct_pair_dispatch fuel
         [PArg.pairLV (PArg.val 1) (PArg.val 2)] = none) ∧
    construct_pair_dispatch 2 [] = some ⟨[], []⟩ ∧
    construct_pair_dispatch 2 [PArg.pairRV (PArg.val 1) (PArg.val 2)]
        = some ⟨[PArg.val 1], [PArg.val 2]⟩ := by
  refine ⟨?_, ?_, rfl, rfl⟩
  · intro fuel
    cases fuel with
    | zero => rfl
    | succ n => exact construct_pair_two_tuples_stuck n _ _
  · intro fuel
    cases fuel with
    | zero => rfl
    | succ n => exact construct_pair_two_tuples_stuck n _ _
